import Mathlib

/-!
Verification of the integration and normalization layer of the
sacsa-sentinel repository (file `api-clients.ts`, with the server-action
wrapper of `server-actions.ts`).

The TypeScript code is shallowly embedded: JavaScript values that may be
`undefined` become `Option`, truthiness tests on strings become the
`truthyStr` test (absent or empty is falsy), `x || d` defaulting becomes
explicit helpers, and each external `fetch` is a parameter of the
function: an inductive value describing the one outcome the call has in
the execution under study (rejecting, returning a non-2xx response, a
malformed body, or a well-shaped body). Call time (`new Date()`,
`Date.now()`) is the explicit parameter `now`, milliseconds since the
epoch, and `toISOString` is implemented as `epochMsToISO`. A `try` block
whose failures are observable is a `... Try` function returning
`Except String R`; the enclosing function applies the `catch` branch to
its `error` case.
-/

/-- Truthiness of a possibly-absent JavaScript string: `undefined`, `null`
and `""` are falsy, every other string truthy. -/
def truthyStr : Option String → Bool
  | none => false
  | some s => !s.isEmpty

/-- String interpolation of a possibly-absent JavaScript string
(`undefined` prints as "undefined"). -/
def jsStr : Option String → String
  | none => "undefined"
  | some s => s

/-- String interpolation of a possibly-absent JavaScript number. -/
def jsNat : Option Nat → String
  | none => "undefined"
  | some n => toString n

/-- `a || b` on two possibly-absent strings (JavaScript returns `b`
whenever `a` is falsy). -/
def jsOrStr (a b : Option String) : Option String :=
  if truthyStr a then a else b

/-- `x || d` on a possibly-absent number (`undefined` and `0` are falsy). -/
def jsOrNat (x : Option Nat) (d : Nat) : Nat :=
  match x with
  | none => d
  | some n => if n == 0 then d else n

/-- `x || 0` on a possibly-absent count field. -/
def jsNatOrZero (x : Option Nat) : Nat := jsOrNat x 0

/-- Models JavaScript `String.prototype.startsWith`. -/
def jsStartsWith (s pre : String) : Bool :=
  pre.data.isPrefixOf s.data

/-- Models JavaScript `String.prototype.substring(1)`. -/
def jsSubstring1 (s : String) : String :=
  String.mk (s.data.drop 1)

def strIncludesAt (pat : List Char) : List Char → Bool
  | [] => pat.isEmpty
  | c :: rest => pat.isPrefixOf (c :: rest) || strIncludesAt pat rest

/-- Models JavaScript `String.prototype.includes`. -/
def strIncludes (s pat : String) : Bool :=
  strIncludesAt pat.data s.data

def splitLinesAux : List Char → List Char → List String
  | [], acc => [String.mk acc.reverse]
  | c :: rest, acc =>
    if c == '\n' then String.mk acc.reverse :: splitLinesAux rest []
    else splitLinesAux rest (c :: acc)

/-- Models JavaScript `String.prototype.split("\n")`. -/
def jsSplitNewline (s : String) : List String :=
  splitLinesAux s.data []

/-- Models JavaScript `Array.prototype.slice(-n)`: the last `n` elements. -/
def lastN (n : Nat) (l : List α) : List α :=
  l.drop (l.length - n)

def pad2 (n : Nat) : String :=
  if n < 10 then "0" ++ toString n else toString n

def pad3 (n : Nat) : String :=
  if n < 10 then "00" ++ toString n
  else if n < 100 then "0" ++ toString n
  else toString n

def pad4 (n : Nat) : String :=
  if n < 10 then "000" ++ toString n
  else if n < 100 then "00" ++ toString n
  else if n < 1000 then "0" ++ toString n
  else toString n

/-- Civil date (year, month, day) of a day count since 1970-01-01
(Gregorian; the standard era-based algorithm, valid for days ≥ 0). -/
def civilFromDays (z0 : Nat) : Nat × Nat × Nat :=
  let z := z0 + 719468
  let era := z / 146097
  let doe := z % 146097
  let yoe := (doe - doe / 1460 + doe / 36524 - doe / 146096) / 365
  let y := yoe + era * 400
  let doy := doe - (365 * yoe + yoe / 4 - yoe / 100)
  let mp := (5 * doy + 2) / 153
  let d := doy - (153 * mp + 2) / 5 + 1
  let m := if mp < 10 then mp + 3 else mp - 9
  (if m ≤ 2 then y + 1 else y, m, d)

/-- Models JavaScript `new Date(ms).toISOString()` for times at or after
the epoch. -/
def epochMsToISO (ms : Nat) : String :=
  let days := ms / 86400000
  let rem := ms % 86400000
  let ymd := civilFromDays days
  pad4 ymd.1 ++ "-" ++ pad2 ymd.2.1 ++ "-" ++ pad2 ymd.2.2 ++ "T" ++
    pad2 (rem / 3600000) ++ ":" ++ pad2 (rem % 3600000 / 60000) ++ ":" ++
    pad2 (rem % 60000 / 1000) ++ "." ++ pad3 (rem % 1000) ++ "Z"

/-- The environment variables the clients read (`process.env`); an unset
variable is `none`. -/
structure Env where
  sentryAuthToken : Option String
  sentryOrg : Option String
  sentryProjectSlug : Option String
  githubToken : Option String
  vercelToken : Option String
  vercelTeamId : Option String
deriving DecidableEq

/-! ## Internal data model (the strict output schema) -/

/-- One normalized error-tracking issue. -/
structure Issue where
  id : String
  title : String
  severity : String
  count : Nat
  lastSeen : Option String
  project : String
  affectedUsers : Nat
  stackTrace : String
deriving DecidableEq

structure IssueSummary where
  critical : Nat
  warning : Nat
  resolved : Nat
  totalEvents : Nat
deriving DecidableEq

structure SentryResult where
  issues : List Issue
  summary : IssueSummary
  timestamp : String
deriving DecidableEq

/-- One structured line record of a parsed unified diff. -/
structure ChangeLine where
  lineNumber : Nat
  type : String
  content : String
deriving DecidableEq

structure CommitInfo where
  sha : String
  message : String
  author : String
  date : String
  branch : String
  url : String
deriving DecidableEq

structure DiffInfo where
  fileName : String
  language : String
  additions : Nat
  deletions : Nat
  changes : List ChangeLine
deriving DecidableEq

structure AnalysisInfo where
  severity : String
  potentialIssues : List String
  recommendation : String
deriving DecidableEq

structure CommitDiffResult where
  commit : CommitInfo
  diff : DiffInfo
  analysis : AnalysisInfo
deriving DecidableEq

structure Deployment where
  id : String
  projectName : String
  status : String
  url : String
  createdAt : String
  commitSha : Option String
  branch : Option String
deriving DecidableEq

structure DeploymentsResult where
  deployments : List Deployment
deriving DecidableEq

structure RollbackResult where
  success : Bool
  deploymentId : String
  previousDeploymentId : Option String
  status : String
  progress : Nat
  message : String
  timestamp : String
deriving DecidableEq

/-! ## Raw upstream payload shapes (loosely typed at the boundary) -/

/-- One raw stack frame of a Sentry last event
(`frame.function`, `frame.filename`, `frame.lineno`, `frame.colno`). -/
structure Frame where
  function : Option String
  filename : Option String
  lineno : Option Nat
  colno : Option Nat
deriving DecidableEq

/-- The object `entry.data.values[0].stacktrace` of a Sentry event entry
(absent anywhere along that optional-chain access reads as the entry
having no `Stacktrace` at all). -/
structure Stacktrace where
  frames : Option (List Frame)
deriving DecidableEq

/-- One entry of `issue.lastEvent.entries`. -/
structure EventEntry where
  type : String
  stacktrace : Option Stacktrace
deriving DecidableEq

/-- One raw issue of the Sentry issues response. -/
structure RawIssue where
  id : String
  title : Option String
  metadataType : Option String
  metadataValue : Option String
  level : Option String
  culprit : Option String
  count : Option Nat
  lastSeen : Option String
  userCount : Option Nat
  lastEventEntries : Option (List EventEntry)
deriving DecidableEq

/-- One file of a GitHub commit response. -/
structure RawFile where
  filename : String
  patch : Option String
  additions : Nat
  deletions : Nat
deriving DecidableEq

/-- The GitHub commit response body. -/
structure RawCommit where
  sha : String
  message : String
  authorEmail : String
  authorDate : String
  htmlUrl : String
  files : List RawFile
deriving DecidableEq

/-- One raw deployment of the Vercel deployments response. -/
structure RawDeployment where
  uid : String
  state : String
  url : String
  created : Nat
  metaGithubCommitSha : Option String
  metaGithubCommitRef : Option String
deriving DecidableEq

/-! ## Fetch outcomes (one per external call, supplied as a parameter) -/

/-- Outcome of the Sentry issues fetch: the promise rejects, the response
is non-2xx (`statusText` carried), the JSON body is not an array, or it
is an array of raw issues. -/
inductive SentryFetch where
  | reject : String → SentryFetch
  | notOk : String → SentryFetch
  | nonArray : SentryFetch
  | ok : List RawIssue → SentryFetch
deriving DecidableEq

/-- Outcome of the GitHub commit fetch; `badBody` is a body on which the
field accesses of the transformation throw (message carried). -/
inductive GitHubFetch where
  | reject : String → GitHubFetch
  | notOk : String → GitHubFetch
  | badBody : String → GitHubFetch
  | ok : RawCommit → GitHubFetch
deriving DecidableEq

/-- Outcome of the Vercel deployments-list fetch. -/
inductive VercelFetch where
  | reject : String → VercelFetch
  | notOk : String → VercelFetch
  | badBody : String → VercelFetch
  | ok : List RawDeployment → VercelFetch
deriving DecidableEq

/-- Outcome of the Vercel promote-deployment POST. -/
inductive PromoteFetch where
  | reject : String → PromoteFetch
  | notOk : String → PromoteFetch
  | ok : PromoteFetch
deriving DecidableEq

/-! ## Call options -/

structure SentryOptions where
  projectId : Option String
  severity : Option String
  limit : Option Nat
deriving DecidableEq

structure GitHubOptions where
  owner : String
  repo : String
  commitSha : String
  fileName : Option String
deriving DecidableEq

structure VercelListOptions where
  projectName : String
  limit : Option Nat
deriving DecidableEq

structure RollbackOptions where
  deploymentId : String
  projectName : String
  targetVersion : Option String
  reason : Option String
deriving DecidableEq

/-! ## Sentry client (`fetchSentryIssues` of api-clients.ts) -/

/-- One line of the extracted stack trace:
`at (function or "anonymous") (filename:lineno:colno)`. -/
def frameLine (frame : Frame) : String :=
  "at " ++ (if truthyStr frame.function then jsStr frame.function else "anonymous") ++
    " (" ++ jsStr frame.filename ++ ":" ++ jsNat frame.lineno ++ ":" ++
    jsNat frame.colno ++ ")"

/-- The join of the last five frames of a raw stack trace object
(`frames.slice(-5).map(...).join("\n")`, with `frames || []`). -/
def stackFramesJoin (st : Stacktrace) : String :=
  String.intercalate "\n" ((lastN 5 (st.frames.getD [])).map frameLine)

/-- The `let stackTrace` block of the issue transformation in
`fetchSentryIssues`: metadata value, else culprit, else the frames of the
exception entry of the last event, else the empty string. -/
def extractStackTrace (issue : RawIssue) : String :=
  if truthyStr issue.metadataValue then jsStr issue.metadataValue
  else if truthyStr issue.culprit then "at " ++ jsStr issue.culprit
  else
    match issue.lastEventEntries with
    | none => ""
    | some entries =>
      match entries.find? (fun e => e.type == "exception") with
      | none => ""
      | some exceptionEntry =>
        match exceptionEntry.stacktrace with
        | none => ""
        | some st => stackFramesJoin st

/-- The per-issue transformation of `fetchSentryIssues` (the body of the
`.map` over the sliced raw issues). -/
def transformIssue (project : String) (issue : RawIssue) : Issue :=
  let stackTrace := extractStackTrace issue
  { id := issue.id
    title :=
      if truthyStr issue.title then jsStr issue.title
      else if truthyStr issue.metadataType then jsStr issue.metadataType
      else "Unknown error"
    severity :=
      if issue.level == some "error" || issue.level == some "fatal" then "critical"
      else "warning"
    count := jsNatOrZero issue.count
    lastSeen := issue.lastSeen
    project := if project.isEmpty then "unknown" else project
    affectedUsers := jsNatOrZero issue.userCount
    stackTrace :=
      if stackTrace.isEmpty then jsStr issue.title ++ " (no stack trace available)"
      else stackTrace }

/-- The summary computed by `fetchSentryIssues` over the transformed
issues. -/
def sentrySummary (transformedIssues : List Issue) : IssueSummary :=
  { critical := (transformedIssues.filter (fun i => i.severity == "critical")).length
    warning := (transformedIssues.filter (fun i => i.severity == "warning")).length
    resolved := 0
    totalEvents := transformedIssues.foldl (fun sum i => sum + i.count) 0 }

/-- `getMockSentryData` of api-clients.ts. -/
def getMockSentryData (now : Nat) : SentryResult :=
  { issues := [
      { id := "94486645"
        title := "ReferenceError: myUndefinedFunction is not defined"
        severity := "critical"
        count := 6
        lastSeen := some (epochMsToISO now)
        project := "javascript"
        affectedUsers := 5
        stackTrace := "ReferenceError: myUndefinedFunction is not defined\n    at handleSubmit (src/components/ContactForm.tsx:45:12)\n    at HTMLButtonElement.callCallback (react-dom.production.min.js:3945:14)\n    at Object.invokeGuardedCallbackDev (react-dom.development.js:3994:16)\n    at invokeGuardedCallback (react-dom.production.min.js:4056:31)\n    at executeDispatch (react-dom.production.min.js:8551:3)\n\nLikely cause: Function was renamed from 'validateAndSubmit' to 'handleFormValidation' in commit abc123f but one call site was missed.\nFile: src/components/ContactForm.tsx, Line 45\nSuggested fix: Import and use 'handleFormValidation' instead or restore 'myUndefinedFunction' as an alias." } ]
    summary := { critical := 1, warning := 0, resolved := 0, totalEvents := 6 }
    timestamp := epochMsToISO now }

/-- `options.projectId || process.env.SENTRY_PROJECT_SLUG`. -/
def resolvedSentryProject (env : Env) (options : SentryOptions) : Option String :=
  jsOrStr options.projectId env.sentryProjectSlug

/-- The `try` block of `fetchSentryIssues`: throws on a non-2xx response
and on a non-array body, otherwise slices, transforms and summarizes. -/
def fetchSentryIssuesTry (project : String) (now : Nat) (oracle : SentryFetch)
    (options : SentryOptions) : Except String SentryResult :=
  match oracle with
  | .reject e => .error e
  | .notOk statusText => .error ("Sentry API error: " ++ statusText)
  | .nonArray => .error "Invalid Sentry API response"
  | .ok issues =>
    let transformedIssues :=
      (issues.take (jsOrNat options.limit 10)).map (transformIssue project)
    .ok { issues := transformedIssues
          summary := sentrySummary transformedIssues
          timestamp := epochMsToISO now }

/-- `fetchSentryIssues` of api-clients.ts: mock data when a credential is
missing, mock data when the try block throws, the real result otherwise. -/
def fetchSentryIssues (env : Env) (now : Nat) (oracle : SentryFetch)
    (options : SentryOptions) : SentryResult :=
  let project := resolvedSentryProject env options
  if !truthyStr env.sentryAuthToken || !truthyStr env.sentryOrg || !truthyStr project then
    getMockSentryData now
  else
    match fetchSentryIssuesTry (jsStr project) now oracle options with
    | .ok r => r
    | .error _ => getMockSentryData now

/-! ## Patch parsing and analysis helpers -/

def digitsToNat (ds : List Char) : Nat :=
  ds.foldl (fun a c => a * 10 + (c.toNat - 48)) 0

/-- `\d+` at the head of the characters: the number read and the rest,
or `none` when no digit is there. -/
def readNatChars (cs : List Char) : Option (Nat × List Char) :=
  let ds := cs.takeWhile Char.isDigit
  if ds.isEmpty then none
  else some (digitsToNat ds, cs.dropWhile Char.isDigit)

/-- `,?\d*` right after a maximal digit run. -/
def skipCommaDigits (cs : List Char) : List Char :=
  match cs with
  | ',' :: rest => rest.dropWhile Char.isDigit
  | _ => cs

/-- Match of the hunk-header pattern `@@ -(\d+),?\d* \+(\d+),?\d* @@`
starting at this position, returning the second captured number (the
new-file start line). -/
def matchHunkAt (cs : List Char) : Option Nat :=
  match cs with
  | '@' :: '@' :: ' ' :: '-' :: rest =>
    match readNatChars rest with
    | none => none
    | some (_, rest) =>
      match skipCommaDigits rest with
      | ' ' :: '+' :: rest =>
        match readNatChars rest with
        | none => none
        | some (n, rest) =>
          match skipCommaDigits rest with
          | ' ' :: '@' :: '@' :: _ => some n
          | _ => none
      | _ => none
  | _ => none

/-- The unanchored regex search `line.match(/@@ -(\d+),?\d* \+(\d+),?\d* @@/)`,
reduced to its second capture group. -/
def findHunk : List Char → Option Nat
  | [] => none
  | c :: rest =>
    match matchHunkAt (c :: rest) with
    | some n => some n
    | none => findHunk rest

/-- The loop of `parsePatch`: one record per `+`, `-` or space line, a
counter reset per parsable hunk header, everything else skipped. -/
def parsePatchLines : List String → Nat → List ChangeLine
  | [], _ => []
  | line :: rest, lineNumber =>
    if jsStartsWith line "@@" then
      match findHunk line.data with
      | some n => parsePatchLines rest n
      | none => parsePatchLines rest lineNumber
    else if jsStartsWith line "+" then
      { lineNumber := lineNumber, type := "add", content := jsSubstring1 line } ::
        parsePatchLines rest (lineNumber + 1)
    else if jsStartsWith line "-" then
      { lineNumber := lineNumber, type := "remove", content := jsSubstring1 line } ::
        parsePatchLines rest lineNumber
    else if jsStartsWith line " " then
      { lineNumber := lineNumber, type := "context", content := jsSubstring1 line } ::
        parsePatchLines rest (lineNumber + 1)
    else
      parsePatchLines rest lineNumber

/-- `parsePatch` of api-clients.ts. -/
def parsePatch (patch : String) : List ChangeLine :=
  (parsePatchLines (jsSplitNewline patch) 0).take 20

/-- `getLanguageFromFilename` of api-clients.ts. -/
def getLanguageFromFilename (filename : String) : String :=
  let ext := (jsStr ((filename.splitOn ".").getLast?)).toLower
  let lang :=
    [("ts", "typescript"), ("tsx", "typescript"), ("js", "javascript"),
     ("jsx", "javascript"), ("py", "python"), ("go", "go"), ("java", "java"),
     ("rb", "ruby"), ("php", "php"), ("css", "css"), ("html", "html")].lookup ext
  lang.getD "text"

/-- `analyzeChanges` of api-clients.ts. -/
def analyzeChanges (changes : List ChangeLine) (_filename : String) : List String :=
  let addedLines := (changes.filter (fun c => c.type == "add")).map (fun c => c.content)
  let issues : List String := []
  let issues :=
    if addedLines.any (fun line => strIncludes line "console.log") then
      issues ++ ["Debug logging statement added - consider removing before production"]
    else issues
  let issues :=
    if addedLines.any (fun line => strIncludes line "TODO" || strIncludes line "FIXME") then
      issues ++ ["TODO/FIXME comments found - incomplete work may exist"]
    else issues
  let issues :=
    if addedLines.any (fun line => strIncludes line "any") then
      issues ++ ["TypeScript 'any' type used - consider using specific types"]
    else issues
  if issues.isEmpty then ["No obvious issues detected - changes appear safe"]
  else issues

/-! ## GitHub client (`fetchGitHubCommitDiff` of api-clients.ts) -/

/-- `getMockGitHubData` of api-clients.ts (the commit date is two hours
before call time). -/
def getMockGitHubData (now : Nat) (_options : GitHubOptions) : CommitDiffResult :=
  { commit :=
      { sha := "abc123f"
        message := "Refactor: Rename validateAndSubmit to handleFormValidation for clarity"
        author := "dev@example.com"
        date := epochMsToISO (now - 2 * 60 * 60 * 1000)
        branch := "main"
        url := "https://github.com/example/repo/commit/abc123f" }
    diff :=
      { fileName := "src/utils/formHelpers.ts"
        language := "typescript"
        additions := 3
        deletions := 3
        changes := [
          { lineNumber := 12, type := "remove",
            content := "export function validateAndSubmit(data: FormData) \x7b" },
          { lineNumber := 13, type := "remove", content := "  // Validate form data" },
          { lineNumber := 14, type := "remove",
            content := "  return apiClient.post('/submit', data);" },
          { lineNumber := 12, type := "add",
            content := "export function handleFormValidation(data: FormData) \x7b" },
          { lineNumber := 13, type := "add",
            content := "  // Validate form data before submission" },
          { lineNumber := 14, type := "add",
            content := "  return apiClient.post('/submit', data);" },
          { lineNumber := 15, type := "context", content := "\x7d" } ] }
    analysis :=
      { severity := "high"
        potentialIssues := [
          "Function renamed but not all call sites updated",
          "Missing import update in ContactForm.tsx:45",
          "Breaking change deployed without backward compatibility" ]
        recommendation :=
          "Add backward-compatible alias or update all references before deploying" } }

/-- The `try` block of `fetchGitHubCommitDiff`: throws on a non-2xx
response, on a malformed body and when no file is found; otherwise picks
the named (or first) file, parses its patch and analyzes it. -/
def fetchGitHubCommitDiffTry (oracle : GitHubFetch) (options : GitHubOptions) :
    Except String CommitDiffResult :=
  match oracle with
  | .reject e => .error e
  | .notOk statusText => .error ("GitHub API error: " ++ statusText)
  | .badBody e => .error e
  | .ok commitData =>
    let file :=
      if truthyStr options.fileName then
        commitData.files.find? (fun f => f.filename == jsStr options.fileName)
      else commitData.files.head?
    match file with
    | none => .error "No files found in commit"
    | some file =>
      let changes := parsePatch (file.patch.getD "")
      .ok { commit :=
              { sha := commitData.sha
                message := commitData.message
                author := commitData.authorEmail
                date := commitData.authorDate
                branch := "main"
                url := commitData.htmlUrl }
            diff :=
              { fileName := file.filename
                language := getLanguageFromFilename file.filename
                additions := file.additions
                deletions := file.deletions
                changes := changes }
            analysis :=
              { severity := "medium"
                potentialIssues := analyzeChanges changes file.filename
                recommendation :=
                  "Review changes for potential issues before deploying to production." } }

/-- `fetchGitHubCommitDiff` of api-clients.ts. -/
def fetchGitHubCommitDiff (env : Env) (now : Nat) (oracle : GitHubFetch)
    (options : GitHubOptions) : CommitDiffResult :=
  if !truthyStr env.githubToken then getMockGitHubData now options
  else
    match fetchGitHubCommitDiffTry oracle options with
    | .ok r => r
    | .error _ => getMockGitHubData now options

/-! ## Vercel client (`fetchVercelDeployments`, `executeVercelRollback`) -/

/-- `getMockVercelDeployments` of api-clients.ts. -/
def getMockVercelDeployments (now : Nat) (options : VercelListOptions) :
    DeploymentsResult :=
  { deployments := [
      { id := "dpl_mock_current"
        projectName := options.projectName
        status := "READY"
        url := "https://" ++ options.projectName ++ ".vercel.app"
        createdAt := epochMsToISO now
        commitSha := some "mock_sha_123"
        branch := some "main" } ] }

/-- The `try` block of `fetchVercelDeployments`: throws on a non-2xx
response or malformed body, otherwise normalizes each raw deployment. -/
def fetchVercelDeploymentsTry (oracle : VercelFetch) (options : VercelListOptions) :
    Except String DeploymentsResult :=
  match oracle with
  | .reject e => .error e
  | .notOk statusText => .error ("Vercel API error: " ++ statusText)
  | .badBody e => .error e
  | .ok deps =>
    .ok { deployments := deps.map (fun dep =>
            { id := dep.uid
              projectName := options.projectName
              status := dep.state
              url := "https://" ++ dep.url
              createdAt := epochMsToISO dep.created
              commitSha := dep.metaGithubCommitSha
              branch := dep.metaGithubCommitRef }) }

/-- `fetchVercelDeployments` of api-clients.ts. -/
def fetchVercelDeployments (env : Env) (now : Nat) (oracle : VercelFetch)
    (options : VercelListOptions) : DeploymentsResult :=
  if !truthyStr env.vercelToken then getMockVercelDeployments now options
  else
    match fetchVercelDeploymentsTry oracle options with
    | .ok r => r
    | .error _ => getMockVercelDeployments now options

/-- `getMockRollbackResult` of api-clients.ts. -/
def getMockRollbackResult (now : Nat) (options : RollbackOptions) : RollbackResult :=
  { success := true
    deploymentId := options.deploymentId
    previousDeploymentId := some "dpl_mock_previous"
    status := "completed"
    progress := 100
    message := "Mock rollback completed for " ++ options.projectName ++
      ". Set VERCEL_TOKEN in .env.local for real rollbacks."
    timestamp := epochMsToISO now }

/-- The eligibility test of the rollback target selection:
`d.id !== options.deploymentId && d.status === "READY"`. -/
def isRollbackCandidate (deploymentId : String) (d : Deployment) : Bool :=
  d.id != deploymentId && d.status == "READY"

/-- The `try` block of `executeVercelRollback`: list up to 10 recent
deployments (the read client, which itself never throws), take the first
eligible one as target (throwing when none is), and promote it (throwing
on rejection or a non-2xx response). -/
def executeVercelRollbackTry (env : Env) (now : Nat) (listOracle : VercelFetch)
    (promoteOracle : PromoteFetch) (options : RollbackOptions) :
    Except String RollbackResult :=
  let deploymentsData :=
    fetchVercelDeployments env now listOracle
      { projectName := options.projectName, limit := some 10 }
  match deploymentsData.deployments.find? (isRollbackCandidate options.deploymentId) with
  | none => .error "No suitable deployment found for rollback"
  | some targetDeployment =>
    match promoteOracle with
    | .reject e => .error e
    | .notOk statusText => .error ("Vercel rollback error: " ++ statusText)
    | .ok =>
      .ok { success := true
            deploymentId := options.deploymentId
            previousDeploymentId := some targetDeployment.id
            status := "completed"
            progress := 100
            message := "Successfully rolled back " ++ options.projectName ++
              " to deployment " ++ targetDeployment.id
            timestamp := epochMsToISO now }

/-- `executeVercelRollback` of api-clients.ts: the mock result when the
token is missing, the terminal failure result when the try block throws,
the terminal success result otherwise. -/
def executeVercelRollback (env : Env) (now : Nat) (listOracle : VercelFetch)
    (promoteOracle : PromoteFetch) (options : RollbackOptions) : RollbackResult :=
  if !truthyStr env.vercelToken then getMockRollbackResult now options
  else
    match executeVercelRollbackTry env now listOracle promoteOracle options with
    | .ok r => r
    | .error msg =>
      { success := false
        deploymentId := options.deploymentId
        previousDeploymentId := none
        status := "failed"
        progress := 0
        message := "Rollback failed: " ++ msg
        timestamp := epochMsToISO now }

/-- `executeVercelRollbackAction` of server-actions.ts:
`try { return await executeVercelRollback(input) } catch ...`. The inner
client catches every failure of its own steps internally and returns a
structured result, so the wrapper's `catch` branch is unreachable and the
action returns exactly the inner result. -/
def executeVercelRollbackAction (env : Env) (now : Nat) (listOracle : VercelFetch)
    (promoteOracle : PromoteFetch) (input : RollbackOptions) : RollbackResult :=
  executeVercelRollback env now listOracle promoteOracle input

/-! ## Helper lemmas -/

lemma find?_of_filter_singleton {α : Type} (p : α → Bool) (l : List α) (d : α)
    (h : l.filter p = [d]) : l.find? p = some d := by
  induction l with
  | nil => simp at h
  | cons a t ih =>
    by_cases ha : p a
    · rw [List.filter_cons, if_pos ha] at h
      injection h with h1 h2
      rw [List.find?_cons, ha, h1]
    · rw [List.filter_cons, if_neg ha] at h
      rw [List.find?_cons]
      simp only [Bool.not_eq_true] at ha
      rw [ha]
      exact ih h

lemma exists_head_of_startsWith (line : String) (c : Char)
    (h : List.isPrefixOf [c] line.data = true) : ∃ tail, line.data = c :: tail := by
  cases hcase : line.data with
  | nil => rw [hcase] at h; simp [List.isPrefixOf] at h
  | cons b bs =>
    rw [hcase] at h
    simp [List.isPrefixOf] at h
    exact ⟨bs, by rw [h]⟩

lemma parsePatchLines_hunk (line : String) (rest : List String) (n c : Nat)
    (h1 : jsStartsWith line "@@" = true) (h2 : findHunk line.data = some c) :
    parsePatchLines (line :: rest) n = parsePatchLines rest c := by
  conv_lhs => rw [parsePatchLines]
  rw [h1, h2]
  rfl

lemma parsePatchLines_plus (line : String) (rest : List String) (n : Nat)
    (h : jsStartsWith line "+" = true) :
    parsePatchLines (line :: rest) n =
      { lineNumber := n, type := "add", content := jsSubstring1 line } ::
        parsePatchLines rest (n + 1) := by
  obtain ⟨tail, hd⟩ := exists_head_of_startsWith line '+' h
  have hat : jsStartsWith line "@@" = false := by
    unfold jsStartsWith; rw [hd]; simp [List.isPrefixOf]
  conv_lhs => rw [parsePatchLines]
  rw [hat, h]
  rfl

lemma parsePatchLines_minus (line : String) (rest : List String) (n : Nat)
    (h : jsStartsWith line "-" = true) :
    parsePatchLines (line :: rest) n =
      { lineNumber := n, type := "remove", content := jsSubstring1 line } ::
        parsePatchLines rest n := by
  obtain ⟨tail, hd⟩ := exists_head_of_startsWith line '-' h
  have hat : jsStartsWith line "@@" = false := by
    unfold jsStartsWith; rw [hd]; simp [List.isPrefixOf]
  have hplus : jsStartsWith line "+" = false := by
    unfold jsStartsWith; rw [hd]; simp [List.isPrefixOf]
  conv_lhs => rw [parsePatchLines]
  rw [hat, hplus, h]
  rfl

lemma parsePatchLines_space (line : String) (rest : List String) (n : Nat)
    (h : jsStartsWith line " " = true) :
    parsePatchLines (line :: rest) n =
      { lineNumber := n, type := "context", content := jsSubstring1 line } ::
        parsePatchLines rest (n + 1) := by
  obtain ⟨tail, hd⟩ := exists_head_of_startsWith line ' ' h
  have hat : jsStartsWith line "@@" = false := by
    unfold jsStartsWith; rw [hd]; simp [List.isPrefixOf]
  have hplus : jsStartsWith line "+" = false := by
    unfold jsStartsWith; rw [hd]; simp [List.isPrefixOf]
  have hminus : jsStartsWith line "-" = false := by
    unfold jsStartsWith; rw [hd]; simp [List.isPrefixOf]
  conv_lhs => rw [parsePatchLines]
  rw [hat, hplus, hminus, h]
  rfl

lemma rollbackTry_ok_shape (env : Env) (now : Nat) (listOracle : VercelFetch)
    (promoteOracle : PromoteFetch) (options : RollbackOptions) (r : RollbackResult)
    (h : executeVercelRollbackTry env now listOracle promoteOracle options = .ok r) :
    r.success = true ∧ r.status = "completed" ∧ r.progress = 100 := by
  simp only [executeVercelRollbackTry] at h
  split at h
  · simp at h
  · cases promoteOracle with
    | reject e => simp at h
    | notOk st => simp at h
    | ok =>
      injection h with h1
      rw [← h1]
      exact ⟨rfl, rfl, rfl⟩

lemma transformIssue_severity_dichotomy (project : String) (raw : RawIssue) :
    (transformIssue project raw).severity = "critical" ∨
      (transformIssue project raw).severity = "warning" := by
  cases hc : (raw.level == some "error" || raw.level == some "fatal") <;>
    simp [transformIssue, hc]

lemma foldl_count_sum (l : List Issue) (a : Nat) :
    l.foldl (fun sum i => sum + i.count) a = a + (l.map (fun i => i.count)).sum := by
  induction l generalizing a with
  | nil => simp
  | cons x t ih => simp [List.foldl_cons, ih, Nat.add_assoc]

lemma sentrySummary_partition (l : List Issue)
    (h : ∀ i ∈ l, i.severity = "critical" ∨ i.severity = "warning") :
    (l.filter (fun i => i.severity == "critical")).length +
      (l.filter (fun i => i.severity == "warning")).length = l.length := by
  induction l with
  | nil => rfl
  | cons x t ih =>
    have hx := h x (List.mem_cons_self x t)
    have ht := ih (fun i hi => h i (List.mem_cons_of_mem x hi))
    rcases hx with hx | hx
    · rw [List.filter_cons, List.filter_cons, if_pos (by simp [hx]),
        if_neg (by simp [hx])]
      simp only [List.length_cons]
      omega
    · rw [List.filter_cons, List.filter_cons, if_neg (by simp [hx]),
        if_pos (by simp [hx])]
      simp only [List.length_cons]
      omega

/-! ## Claim theorems -/

/-- The terminal-outcome invariant of a rollback result: success goes with
status completed and full progress, failure with status failed and zero
progress. -/
def terminalRollbackOutcome (r : RollbackResult) : Prop :=
  (r.success = true ∧ r.status = "completed" ∧ r.progress = 100) ∨
  (r.success = false ∧ r.status = "failed" ∧ r.progress = 0)

/-- C1. For every input and every outcome of the underlying calls, the
result of `executeVercelRollback` has success=true with status
"completed" and progress 100, or success=false with status "failed" and
progress 0, and no other combination — also when obtained through the
`executeVercelRollbackAction` wrapper. -/
theorem rollback_result_invariant (env : Env) (now : Nat) (listOracle : VercelFetch)
    (promoteOracle : PromoteFetch) (options : RollbackOptions) :
    terminalRollbackOutcome (executeVercelRollback env now listOracle promoteOracle options) ∧
    terminalRollbackOutcome
      (executeVercelRollbackAction env now listOracle promoteOracle options) := by
  have h : terminalRollbackOutcome
      (executeVercelRollback env now listOracle promoteOracle options) := by
    unfold executeVercelRollback terminalRollbackOutcome
    split
    · exact Or.inl ⟨rfl, rfl, rfl⟩
    · split
      · next r heq => exact Or.inl (rollbackTry_ok_shape _ _ _ _ _ _ heq)
      · exact Or.inr ⟨rfl, rfl, rfl⟩
  exact ⟨h, h⟩

/-- C2. Each read operation returns a well-formed result for every
behaviour of the external fetch: either the mock value or the successful
value of its own try block, never a propagated exception (the functions
are total and each equals one of the two). -/
theorem read_operations_wellFormed (env : Env) (now : Nat)
    (so : SentryFetch) (go : GitHubFetch) (vo : VercelFetch)
    (sopts : SentryOptions) (gopts : GitHubOptions) (vopts : VercelListOptions) :
    (fetchSentryIssues env now so sopts = getMockSentryData now ∨
      ∃ r, fetchSentryIssuesTry (jsStr (resolvedSentryProject env sopts)) now so sopts =
          .ok r ∧ fetchSentryIssues env now so sopts = r) ∧
    (fetchGitHubCommitDiff env now go gopts = getMockGitHubData now gopts ∨
      ∃ r, fetchGitHubCommitDiffTry go gopts = .ok r ∧
        fetchGitHubCommitDiff env now go gopts = r) ∧
    (fetchVercelDeployments env now vo vopts = getMockVercelDeployments now vopts ∨
      ∃ r, fetchVercelDeploymentsTry vo vopts = .ok r ∧
        fetchVercelDeployments env now vo vopts = r) := by
  refine ⟨?_, ?_, ?_⟩
  · simp only [fetchSentryIssues]
    split
    · exact Or.inl rfl
    · split
      · next r heq => exact Or.inr ⟨r, heq, rfl⟩
      · exact Or.inl rfl
  · unfold fetchGitHubCommitDiff
    split
    · exact Or.inl rfl
    · split
      · next r heq => exact Or.inr ⟨r, heq, rfl⟩
      · exact Or.inl rfl
  · unfold fetchVercelDeployments
    split
    · exact Or.inl rfl
    · split
      · next r heq => exact Or.inr ⟨r, heq, rfl⟩
      · exact Or.inl rfl

/-- C3. With the deployment token present, `executeVercelRollback` takes
as target the first listed deployment whose id differs from the input and
whose status is "READY": when that first match exists and the promote
call succeeds the result is the success result carrying its id as
`previousDeploymentId` (in particular when exactly one eligible
deployment exists), and when no eligible deployment exists the result is
the failure result with status "failed", progress 0 and a message
containing "No suitable deployment found for rollback". -/
theorem executeVercelRollback_target_selection
    (env : Env) (now : Nat) (listOracle : VercelFetch) (promoteOracle : PromoteFetch)
    (options : RollbackOptions)
    (htok : truthyStr env.vercelToken = true) :
    (∀ d,
      (fetchVercelDeployments env now listOracle
          { projectName := options.projectName, limit := some 10 }).deployments.find?
        (isRollbackCandidate options.deploymentId) = some d →
      promoteOracle = PromoteFetch.ok →
      executeVercelRollback env now listOracle promoteOracle options =
        { success := true
          deploymentId := options.deploymentId
          previousDeploymentId := some d.id
          status := "completed"
          progress := 100
          message := "Successfully rolled back " ++ options.projectName ++
            " to deployment " ++ d.id
          timestamp := epochMsToISO now }) ∧
    (∀ d,
      (fetchVercelDeployments env now listOracle
          { projectName := options.projectName, limit := some 10 }).deployments.filter
        (isRollbackCandidate options.deploymentId) = [d] →
      promoteOracle = PromoteFetch.ok →
      (executeVercelRollback env now listOracle promoteOracle options).success = true ∧
      (executeVercelRollback env now listOracle promoteOracle options).previousDeploymentId =
        some d.id) ∧
    ((fetchVercelDeployments env now listOracle
          { projectName := options.projectName, limit := some 10 }).deployments.filter
        (isRollbackCandidate options.deploymentId) = [] →
      executeVercelRollback env now listOracle promoteOracle options =
        { success := false
          deploymentId := options.deploymentId
          previousDeploymentId := none
          status := "failed"
          progress := 0
          message := "Rollback failed: No suitable deployment found for rollback"
          timestamp := epochMsToISO now } ∧
      ∃ pre post,
        (executeVercelRollback env now listOracle promoteOracle options).message =
          pre ++ "No suitable deployment found for rollback" ++ post) := by
  have hstep : ∀ d,
      (fetchVercelDeployments env now listOracle
          { projectName := options.projectName, limit := some 10 }).deployments.find?
        (isRollbackCandidate options.deploymentId) = some d →
      promoteOracle = PromoteFetch.ok →
      executeVercelRollback env now listOracle promoteOracle options =
        { success := true
          deploymentId := options.deploymentId
          previousDeploymentId := some d.id
          status := "completed"
          progress := 100
          message := "Successfully rolled back " ++ options.projectName ++
            " to deployment " ++ d.id
          timestamp := epochMsToISO now } := by
    intro d hd hpo
    subst hpo
    simp [executeVercelRollback, executeVercelRollbackTry, htok, hd]
  refine ⟨hstep, ?_, ?_⟩
  · intro d hf hpo
    have h := hstep d (find?_of_filter_singleton _ _ _ hf) hpo
    rw [h]
    exact ⟨rfl, rfl⟩
  · intro hf
    have hnone :
        (fetchVercelDeployments env now listOracle
            { projectName := options.projectName, limit := some 10 }).deployments.find?
          (isRollbackCandidate options.deploymentId) = none :=
      List.find?_eq_none.mpr (List.filter_eq_nil_iff.mp hf)
    have h : executeVercelRollback env now listOracle promoteOracle options =
        { success := false
          deploymentId := options.deploymentId
          previousDeploymentId := none
          status := "failed"
          progress := 0
          message := "Rollback failed: No suitable deployment found for rollback"
          timestamp := epochMsToISO now } := by
      simp [executeVercelRollback, executeVercelRollbackTry, htok, hnone]
    exact ⟨h, "Rollback failed: ", "", by rw [h]; rfl⟩

/-- C4. With the credentials present, every issue of a successful fetch is
the transformation of one of the raw issues, whose severity is "critical"
exactly when the raw level is "error" or "fatal", "warning" for every
other level, and never "resolved". -/
theorem sentry_severity_classification
    (env : Env) (now : Nat) (raws : List RawIssue) (options : SentryOptions) (issue : Issue)
    (hcred : (!truthyStr env.sentryAuthToken || !truthyStr env.sentryOrg ||
      !truthyStr (resolvedSentryProject env options)) = false)
    (hmem : issue ∈ (fetchSentryIssues env now (SentryFetch.ok raws) options).issues) :
    ∃ raw ∈ raws,
      issue = transformIssue (jsStr (resolvedSentryProject env options)) raw ∧
      ((raw.level = some "error" ∨ raw.level = some "fatal") →
        issue.severity = "critical") ∧
      (¬(raw.level = some "error" ∨ raw.level = some "fatal") →
        issue.severity = "warning") ∧
      issue.severity ≠ "resolved" := by
  have hmem' : issue ∈ (raws.take (jsOrNat options.limit 10)).map
      (transformIssue (jsStr (resolvedSentryProject env options))) := by
    have hres : fetchSentryIssues env now (SentryFetch.ok raws) options =
        { issues := (raws.take (jsOrNat options.limit 10)).map
            (transformIssue (jsStr (resolvedSentryProject env options)))
          summary := sentrySummary ((raws.take (jsOrNat options.limit 10)).map
            (transformIssue (jsStr (resolvedSentryProject env options))))
          timestamp := epochMsToISO now } := by
      simp [fetchSentryIssues, fetchSentryIssuesTry, hcred]
    rw [hres] at hmem
    exact hmem
  obtain ⟨raw, hrawTake, hIss⟩ := List.mem_map.mp hmem'
  refine ⟨raw, List.take_subset _ _ hrawTake, hIss.symm, ?_, ?_, ?_⟩
  · intro h
    rcases h with h | h <;> (rw [← hIss]; simp [transformIssue, h])
  · intro h
    push_neg at h
    have hb : (raw.level == some "error" || raw.level == some "fatal") = false := by
      rw [Bool.or_eq_false_iff]
      exact ⟨beq_eq_false_iff_ne.mpr h.1, beq_eq_false_iff_ne.mpr h.2⟩
    rw [← hIss]
    simp [transformIssue, hb]
  · rw [← hIss]
    rcases transformIssue_severity_dichotomy
        (jsStr (resolvedSentryProject env options)) raw with h | h <;>
      rw [h] <;> decide

/-- C5. With the credentials present, the summary of a successful fetch
satisfies critical + warning = number of issues, resolved = 0, and
totalEvents = the sum of the issues' counts. -/
theorem sentry_summary_counts
    (env : Env) (now : Nat) (raws : List RawIssue) (options : SentryOptions)
    (hcred : (!truthyStr env.sentryAuthToken || !truthyStr env.sentryOrg ||
      !truthyStr (resolvedSentryProject env options)) = false) :
    (fetchSentryIssues env now (SentryFetch.ok raws) options).summary.critical +
      (fetchSentryIssues env now (SentryFetch.ok raws) options).summary.warning =
      (fetchSentryIssues env now (SentryFetch.ok raws) options).issues.length ∧
    (fetchSentryIssues env now (SentryFetch.ok raws) options).summary.resolved = 0 ∧
    (fetchSentryIssues env now (SentryFetch.ok raws) options).summary.totalEvents =
      ((fetchSentryIssues env now (SentryFetch.ok raws) options).issues.map
        (fun i => i.count)).sum := by
  have hres : fetchSentryIssues env now (SentryFetch.ok raws) options =
      { issues := (raws.take (jsOrNat options.limit 10)).map
          (transformIssue (jsStr (resolvedSentryProject env options)))
        summary := sentrySummary ((raws.take (jsOrNat options.limit 10)).map
          (transformIssue (jsStr (resolvedSentryProject env options))))
        timestamp := epochMsToISO now } := by
    simp [fetchSentryIssues, fetchSentryIssuesTry, hcred]
  rw [hres]
  refine ⟨?_, rfl, ?_⟩
  · exact sentrySummary_partition _ (by
      intro i hi
      obtain ⟨raw, _, hIss⟩ := List.mem_map.mp hi
      rw [← hIss]
      exact transformIssue_severity_dichotomy _ _)
  · show (sentrySummary _).totalEvents = _
    simp only [sentrySummary]
    rw [foldl_count_sum]
    exact Nat.zero_add _

lemma truthy_jsStr_isEmpty (o : Option String) (h : truthyStr o = true) :
    (jsStr o).isEmpty = false := by
  cases o with
  | none => simp [truthyStr] at h
  | some s =>
    simp only [truthyStr, Bool.not_eq_true'] at h
    simpa [jsStr] using h

lemma isEmpty_at_append (x : String) : ("at " ++ x).isEmpty = false := by
  rw [Bool.eq_false_iff]
  intro h
  have h2 := (String.isEmpty_iff _).mp h
  have h3 := congrArg String.data h2
  rw [String.data_append] at h3
  simp at h3

lemma isEmpty_false_of_ne (s : String) (h : s ≠ "") : s.isEmpty = false := by
  rw [Bool.eq_false_iff]
  intro hc
  exact h ((String.isEmpty_iff _).mp hc)

/-- C6. The parser's single counter: `parsePatch` is the 20-record
truncation of the line loop, and in that loop a parsable hunk header sets
the counter to its new-file start line without emitting, a `+` line emits
the counter then increments it, a `-` line emits the counter without
incrementing, a space line emits the counter then increments it, and two
consecutive `-` lines therefore emit the same line number twice. -/
theorem parsePatch_line_counter (line : String) (rest : List String) (n c : Nat) :
    (∀ patch, parsePatch patch = (parsePatchLines (jsSplitNewline patch) 0).take 20) ∧
    (jsStartsWith line "@@" = true → findHunk line.data = some c →
      parsePatchLines (line :: rest) n = parsePatchLines rest c) ∧
    (jsStartsWith line "+" = true →
      parsePatchLines (line :: rest) n =
        { lineNumber := n, type := "add", content := jsSubstring1 line } ::
          parsePatchLines rest (n + 1)) ∧
    (jsStartsWith line "-" = true →
      parsePatchLines (line :: rest) n =
        { lineNumber := n, type := "remove", content := jsSubstring1 line } ::
          parsePatchLines rest n) ∧
    (jsStartsWith line " " = true →
      parsePatchLines (line :: rest) n =
        { lineNumber := n, type := "context", content := jsSubstring1 line } ::
          parsePatchLines rest (n + 1)) ∧
    (∀ l1 l2, jsStartsWith l1 "-" = true → jsStartsWith l2 "-" = true →
      parsePatchLines (l1 :: l2 :: rest) n =
        { lineNumber := n, type := "remove", content := jsSubstring1 l1 } ::
        { lineNumber := n, type := "remove", content := jsSubstring1 l2 } ::
          parsePatchLines rest n) := by
  refine ⟨fun _ => rfl, parsePatchLines_hunk line rest n c,
    parsePatchLines_plus line rest n, parsePatchLines_minus line rest n,
    parsePatchLines_space line rest n, ?_⟩
  intro l1 l2 h1 h2
  rw [parsePatchLines_minus l1 (l2 :: rest) n h1, parsePatchLines_minus l2 rest n h2]

/-- The literal regression patch of the specification: one hunk header
`@@ -1,3 +5,3 @@` followed by a context, a remove, an add and a context
line. -/
def c7Patch : String := "@@ -1,3 +5,3 @@\n a\n-b\n+c\n d"

/-- C7 counterexample: on the regression patch the emitted line numbers
are not `[5, 5, 6, 6]` (the code emits `[5, 6, 6, 7]`: the remove line
repeats the counter already advanced past the first context line). -/
theorem parsePatch_regression_counterexample :
    ¬((parsePatch c7Patch).map (fun ch => ch.type) =
        ["context", "remove", "add", "context"] ∧
      (parsePatch c7Patch).map (fun ch => ch.lineNumber) = [5, 5, 6, 6]) := by
  decide

/-- C7 amended: on the regression patch `parsePatch` emits four records
of types context, remove, add, context with line numbers 5, 6, 6, 7. -/
theorem parsePatch_regression_case :
    parsePatch c7Patch =
      [{ lineNumber := 5, type := "context", content := "a" },
       { lineNumber := 6, type := "remove", content := "b" },
       { lineNumber := 6, type := "add", content := "c" },
       { lineNumber := 7, type := "context", content := "d" }] := by
  decide

/-- A raw issue whose only stack-trace source is a last-event exception
entry carrying a stack trace with zero frames. -/
def emptyFramesIssue : RawIssue :=
  { id := "9001"
    title := some "TypeError: x is not a function"
    metadataType := none
    metadataValue := none
    level := some "error"
    culprit := none
    count := some 1
    lastSeen := none
    userCount := none
    lastEventEntries :=
      some [{ type := "exception", stacktrace := some { frames := some [] } }] }

/-- C8 counterexample: this issue has a last-event exception entry (no
metadata value, no culprit), so the claimed chain prescribes the join of
the last 5 stack frames (here the empty join); the code instead produces
the title fallback. -/
theorem stackTrace_chain_counterexample :
    (emptyFramesIssue.lastEventEntries.getD []).find? (fun e => e.type == "exception") =
      some { type := "exception", stacktrace := some { frames := some [] } } ∧
    (transformIssue "demo" emptyFramesIssue).stackTrace =
      "TypeError: x is not a function (no stack trace available)" ∧
    (transformIssue "demo" emptyFramesIssue).stackTrace ≠
      stackFramesJoin { frames := some [] } := by
  decide

/-- C8 amended: the normalized stackTrace follows the first-match-wins
chain: (a) the metadata value field when truthy (present and nonempty);
(b) else "at " plus the culprit when truthy; (c) else, when the first
exception entry of the last-event entries carries a stack trace whose
join of the last 5 frames is nonempty, that join; (d) else — no entries,
no exception entry, no stack trace on it, or an empty join — the title
with " (no stack trace available)". -/
theorem stackTrace_fallback_chain (project : String) (issue : RawIssue) :
    (truthyStr issue.metadataValue = true →
      (transformIssue project issue).stackTrace = jsStr issue.metadataValue) ∧
    (truthyStr issue.metadataValue = false → truthyStr issue.culprit = true →
      (transformIssue project issue).stackTrace = "at " ++ jsStr issue.culprit) ∧
    (∀ entries entry stx,
      truthyStr issue.metadataValue = false → truthyStr issue.culprit = false →
      issue.lastEventEntries = some entries →
      entries.find? (fun e => e.type == "exception") = some entry →
      entry.stacktrace = some stx →
      stackFramesJoin stx ≠ "" →
      (transformIssue project issue).stackTrace = stackFramesJoin stx) ∧
    (truthyStr issue.metadataValue = false → truthyStr issue.culprit = false →
      (issue.lastEventEntries = none ∨
       (∃ entries, issue.lastEventEntries = some entries ∧
         entries.find? (fun e => e.type == "exception") = none) ∨
       (∃ entries entry, issue.lastEventEntries = some entries ∧
         entries.find? (fun e => e.type == "exception") = some entry ∧
         entry.stacktrace = none) ∨
       (∃ entries entry stx, issue.lastEventEntries = some entries ∧
         entries.find? (fun e => e.type == "exception") = some entry ∧
         entry.stacktrace = some stx ∧ stackFramesJoin stx = "")) →
      (transformIssue project issue).stackTrace =
        jsStr issue.title ++ " (no stack trace available)") := by
  refine ⟨?_, ?_, ?_, ?_⟩
  · intro hmv
    have hext : extractStackTrace issue = jsStr issue.metadataValue := by
      simp [extractStackTrace, hmv]
    simp [transformIssue, hext, truthy_jsStr_isEmpty _ hmv]
  · intro hmv hcu
    have hext : extractStackTrace issue = "at " ++ jsStr issue.culprit := by
      simp [extractStackTrace, hmv, hcu]
    simp [transformIssue, hext, isEmpty_at_append]
  · intro entries entry stx hmv hcu hent hfind hst hne
    have hext : extractStackTrace issue = stackFramesJoin stx := by
      simp [extractStackTrace, hmv, hcu, hent, hfind, hst]
    simp [transformIssue, hext, isEmpty_false_of_ne _ hne]
  · intro hmv hcu hcases
    have hext : extractStackTrace issue = "" := by
      rcases hcases with h | ⟨entries, h1, h2⟩ | ⟨entries, entry, h1, h2, h3⟩ |
        ⟨entries, entry, stx, h1, h2, h3, h4⟩
      · simp [extractStackTrace, hmv, hcu, h]
      · simp [extractStackTrace, hmv, hcu, h1, h2]
      · simp [extractStackTrace, hmv, hcu, h1, h2, h3]
      · simp [extractStackTrace, hmv, hcu, h1, h2, h3, h4]
    have hemp : ("" : String).isEmpty = true := rfl
    simp [transformIssue, hext, hemp]

/-- C9 counterexample: with every Sentry credential absent the mock result
has summary critical 1 and warning 0, not warning 1 and critical 0 as
claimed. -/
theorem sentry_mock_summary_counterexample :
    ¬((fetchSentryIssues
        { sentryAuthToken := none, sentryOrg := none, sentryProjectSlug := none,
          githubToken := none, vercelToken := none, vercelTeamId := none }
        0 (SentryFetch.ok [])
        { projectId := none, severity := none, limit := none }).summary.warning = 1 ∧
      (fetchSentryIssues
        { sentryAuthToken := none, sentryOrg := none, sentryProjectSlug := none,
          githubToken := none, vercelToken := none, vercelTeamId := none }
        0 (SentryFetch.ok [])
        { projectId := none, severity := none, limit := none }).summary.critical = 0) := by
  decide

/-- C9 amended: whenever any Sentry credential (auth token, organization,
or resolved project identifier) is absent, `fetchSentryIssues` performs
no network call (the result does not depend on the fetch outcome) and
returns the deterministic mock data, whose summary has critical = 1 and
warning = 0. -/
theorem sentry_missing_credentials_mock
    (env : Env) (now : Nat) (oracle : SentryFetch) (options : SentryOptions)
    (hmiss : truthyStr env.sentryAuthToken = false ∨ truthyStr env.sentryOrg = false ∨
      truthyStr (resolvedSentryProject env options) = false) :
    fetchSentryIssues env now oracle options = getMockSentryData now ∧
    (∀ oracle', fetchSentryIssues env now oracle' options =
      fetchSentryIssues env now oracle options) ∧
    (fetchSentryIssues env now oracle options).summary.critical = 1 ∧
    (fetchSentryIssues env now oracle options).summary.warning = 0 := by
  have hcond : (!truthyStr env.sentryAuthToken || !truthyStr env.sentryOrg ||
      !truthyStr (resolvedSentryProject env options)) = true := by
    rcases hmiss with h | h | h <;> simp [h]
  have hmock : ∀ o : SentryFetch,
      fetchSentryIssues env now o options = getMockSentryData now := by
    intro o
    simp [fetchSentryIssues, hcond]
  refine ⟨hmock oracle, fun o' => (hmock o').trans (hmock oracle).symm, ?_, ?_⟩
  · rw [hmock oracle]; rfl
  · rw [hmock oracle]; rfl

/-- C10. When the deployment-platform token is absent,
`executeVercelRollback` performs no network call (the result does not
depend on either fetch outcome) and still returns the mock result
reporting a successful rollback: success = true, status "completed",
progress 100, previousDeploymentId "dpl_mock_previous". -/
theorem rollback_missing_token_mock_success
    (env : Env) (now : Nat) (listOracle : VercelFetch) (promoteOracle : PromoteFetch)
    (options : RollbackOptions)
    (hmiss : truthyStr env.vercelToken = false) :
    executeVercelRollback env now listOracle promoteOracle options =
      getMockRollbackResult now options ∧
    (∀ (lo : VercelFetch) (po : PromoteFetch),
      executeVercelRollback env now lo po options =
        executeVercelRollback env now listOracle promoteOracle options) ∧
    (executeVercelRollback env now listOracle promoteOracle options).success = true ∧
    (executeVercelRollback env now listOracle promoteOracle options).status = "completed" ∧
    (executeVercelRollback env now listOracle promoteOracle options).progress = 100 ∧
    (executeVercelRollback env now listOracle promoteOracle options).previousDeploymentId =
      some "dpl_mock_previous" := by
  have hmock : ∀ (lo : VercelFetch) (po : PromoteFetch),
      executeVercelRollback env now lo po options = getMockRollbackResult now options := by
    intro lo po
    simp [executeVercelRollback, hmiss]
  refine ⟨hmock _ _, fun lo po => (hmock lo po).trans (hmock _ _).symm, ?_, ?_, ?_, ?_⟩ <;>
    rw [hmock listOracle promoteOracle] <;> rfl

/-! ## Witness inputs and witnesses -/

/-- An environment with only the Vercel token set. -/
def wEnvVercel : Env :=
  { sentryAuthToken := none, sentryOrg := none, sentryProjectSlug := none,
    githubToken := none, vercelToken := some "tok", vercelTeamId := none }

/-- An environment with every credential unset. -/
def wNoCredsEnv : Env :=
  { sentryAuthToken := none, sentryOrg := none, sentryProjectSlug := none,
    githubToken := none, vercelToken := none, vercelTeamId := none }

/-- An environment with the Sentry credentials set. -/
def wEnvSentry : Env :=
  { sentryAuthToken := some "t", sentryOrg := some "o", sentryProjectSlug := some "p",
    githubToken := none, vercelToken := none, vercelTeamId := none }

def wSentryOpts : SentryOptions := { projectId := none, severity := none, limit := none }

def wRollOpts : RollbackOptions :=
  { deploymentId := "dpl_current", projectName := "web", targetVersion := none,
    reason := none }

def wRawDep : RawDeployment :=
  { uid := "dpl_prev", state := "READY", url := "web.vercel.app", created := 0,
    metaGithubCommitSha := none, metaGithubCommitRef := none }

/-- The normalization of `wRawDep` for the project "web" at time 0. -/
def wDep : Deployment :=
  { id := "dpl_prev", projectName := "web", status := "READY",
    url := "https://web.vercel.app", createdAt := epochMsToISO 0,
    commitSha := none, branch := none }

def wRawFatal : RawIssue :=
  { id := "1", title := some "boom", metadataType := none,
    metadataValue := some "trace", level := some "fatal", culprit := none,
    count := some 2, lastSeen := none, userCount := none, lastEventEntries := none }

def wMetaIssue : RawIssue :=
  { id := "2", title := none, metadataType := none,
    metadataValue := some "boom at line 3", level := none, culprit := none,
    count := none, lastSeen := none, userCount := none, lastEventEntries := none }

theorem executeVercelRollback_target_selection_witness :
    executeVercelRollback wEnvVercel 0 (VercelFetch.ok [wRawDep]) PromoteFetch.ok
        wRollOpts =
      { success := true, deploymentId := "dpl_current",
        previousDeploymentId := some "dpl_prev", status := "completed",
        progress := 100,
        message := "Successfully rolled back web to deployment dpl_prev",
        timestamp := epochMsToISO 0 } ∧
    (executeVercelRollback wEnvVercel 0 (VercelFetch.ok [wRawDep]) PromoteFetch.ok
        wRollOpts).previousDeploymentId = some "dpl_prev" ∧
    executeVercelRollback wEnvVercel 0 (VercelFetch.ok []) PromoteFetch.ok wRollOpts =
      { success := false, deploymentId := "dpl_current",
        previousDeploymentId := none, status := "failed", progress := 0,
        message := "Rollback failed: No suitable deployment found for rollback",
        timestamp := epochMsToISO 0 } := by
  refine ⟨?_, ?_, ?_⟩
  · exact (executeVercelRollback_target_selection wEnvVercel 0
      (VercelFetch.ok [wRawDep]) PromoteFetch.ok wRollOpts rfl).1 wDep (by decide) rfl
  · exact ((executeVercelRollback_target_selection wEnvVercel 0
      (VercelFetch.ok [wRawDep]) PromoteFetch.ok wRollOpts rfl).2.1 wDep
        (by decide) rfl).2
  · exact ((executeVercelRollback_target_selection wEnvVercel 0
      (VercelFetch.ok []) PromoteFetch.ok wRollOpts rfl).2.2 (by decide)).1

theorem sentry_severity_classification_witness :
    ∃ raw ∈ [wRawFatal],
      transformIssue "p" wRawFatal = transformIssue "p" raw ∧
      ((raw.level = some "error" ∨ raw.level = some "fatal") →
        (transformIssue "p" wRawFatal).severity = "critical") ∧
      (¬(raw.level = some "error" ∨ raw.level = some "fatal") →
        (transformIssue "p" wRawFatal).severity = "warning") ∧
      (transformIssue "p" wRawFatal).severity ≠ "resolved" :=
  sentry_severity_classification wEnvSentry 0 [wRawFatal] wSentryOpts
    (transformIssue "p" wRawFatal) (by decide) (by decide)

theorem sentry_summary_counts_witness :
    (fetchSentryIssues wEnvSentry 0 (SentryFetch.ok [wRawFatal]) wSentryOpts).summary.critical +
      (fetchSentryIssues wEnvSentry 0 (SentryFetch.ok [wRawFatal]) wSentryOpts).summary.warning =
      (fetchSentryIssues wEnvSentry 0 (SentryFetch.ok [wRawFatal]) wSentryOpts).issues.length ∧
    (fetchSentryIssues wEnvSentry 0 (SentryFetch.ok [wRawFatal]) wSentryOpts).summary.resolved = 0 ∧
    (fetchSentryIssues wEnvSentry 0 (SentryFetch.ok [wRawFatal]) wSentryOpts).summary.totalEvents =
      ((fetchSentryIssues wEnvSentry 0 (SentryFetch.ok [wRawFatal]) wSentryOpts).issues.map
        (fun i => i.count)).sum :=
  sentry_summary_counts wEnvSentry 0 [wRawFatal] wSentryOpts (by decide)

theorem parsePatch_line_counter_witness :
    parsePatchLines ["@@ -1,3 +5,3 @@", "+x"] 0 = parsePatchLines ["+x"] 5 ∧
    parsePatchLines ["+x"] 5 =
      { lineNumber := 5, type := "add", content := "x" } :: parsePatchLines [] 6 ∧
    parsePatchLines [" z"] 9 =
      { lineNumber := 9, type := "context", content := "z" } :: parsePatchLines [] 10 ∧
    parsePatchLines ["-a", "-b"] 3 =
      { lineNumber := 3, type := "remove", content := "a" } ::
      { lineNumber := 3, type := "remove", content := "b" } ::
        parsePatchLines [] 3 := by
  refine ⟨?_, ?_, ?_, ?_⟩
  · exact (parsePatch_line_counter "@@ -1,3 +5,3 @@" ["+x"] 0 5).2.1 rfl rfl
  · exact (parsePatch_line_counter "+x" [] 5 0).2.2.1 rfl
  · exact (parsePatch_line_counter " z" [] 9 0).2.2.2.2.1 rfl
  · exact (parsePatch_line_counter "x" [] 3 0).2.2.2.2.2 "-a" "-b" rfl rfl

theorem stackTrace_fallback_chain_witness :
    (transformIssue "demo" wMetaIssue).stackTrace = "boom at line 3" ∧
    (transformIssue "demo" emptyFramesIssue).stackTrace =
      jsStr emptyFramesIssue.title ++ " (no stack trace available)" := by
  constructor
  · exact (stackTrace_fallback_chain "demo" wMetaIssue).1 rfl
  · exact (stackTrace_fallback_chain "demo" emptyFramesIssue).2.2.2 rfl rfl
      (Or.inr (Or.inr (Or.inr
        ⟨[{ type := "exception", stacktrace := some { frames := some [] } }],
          { type := "exception", stacktrace := some { frames := some [] } },
          { frames := some [] }, rfl, rfl, rfl, rfl⟩)))

theorem sentry_missing_credentials_mock_witness :
    fetchSentryIssues wNoCredsEnv 0 (SentryFetch.ok []) wSentryOpts =
      getMockSentryData 0 ∧
    (∀ oracle', fetchSentryIssues wNoCredsEnv 0 oracle' wSentryOpts =
      fetchSentryIssues wNoCredsEnv 0 (SentryFetch.ok []) wSentryOpts) ∧
    (fetchSentryIssues wNoCredsEnv 0 (SentryFetch.ok []) wSentryOpts).summary.critical = 1 ∧
    (fetchSentryIssues wNoCredsEnv 0 (SentryFetch.ok []) wSentryOpts).summary.warning = 0 :=
  sentry_missing_credentials_mock wNoCredsEnv 0 (SentryFetch.ok []) wSentryOpts
    (Or.inl rfl)

theorem rollback_missing_token_mock_success_witness :
    executeVercelRollback wNoCredsEnv 0 (VercelFetch.ok []) PromoteFetch.ok wRollOpts =
      getMockRollbackResult 0 wRollOpts ∧
    (∀ (lo : VercelFetch) (po : PromoteFetch),
      executeVercelRollback wNoCredsEnv 0 lo po wRollOpts =
        executeVercelRollback wNoCredsEnv 0 (VercelFetch.ok []) PromoteFetch.ok wRollOpts) ∧
    (executeVercelRollback wNoCredsEnv 0 (VercelFetch.ok []) PromoteFetch.ok
      wRollOpts).success = true ∧
    (executeVercelRollback wNoCredsEnv 0 (VercelFetch.ok []) PromoteFetch.ok
      wRollOpts).status = "completed" ∧
    (executeVercelRollback wNoCredsEnv 0 (VercelFetch.ok []) PromoteFetch.ok
      wRollOpts).progress = 100 ∧
    (executeVercelRollback wNoCredsEnv 0 (VercelFetch.ok []) PromoteFetch.ok
      wRollOpts).previousDeploymentId = some "dpl_mock_previous" :=
  rollback_missing_token_mock_success wNoCredsEnv 0 (VercelFetch.ok []) PromoteFetch.ok
    wRollOpts rfl
